import Mathlib

/-
Verification of the sqlexp quoting helpers (quoter.go) and the nest
nested-transaction wrapper (nest.go) of golang-sql/sqlexp.

Modelling conventions:
- Go strings are lists of characters.
- Go `interface\x7b\x7d` argument values are `GoValue`.
- `context.Context` values are opaque tokens (`Ctx`).
- Native database resources (`sql.Tx`, `sql.DB`, `sql.Conn`) are identified
  by numeric ids; the outcome of each native operation is supplied by an
  `Env` oracle, and every wrapper operation returns the list of native calls
  it performs together with its result, so that "executes zero / exactly one
  SQL statement" is directly observable.
-/

namespace Sqlexp

/-- Go `strings.Replace(s, old, new, -1)` specialised to a one-character
pattern, which is the only way quoter.go uses it. -/
def replaceChar (old : Char) (new : List Char) : List Char → List Char
  | [] => []
  | c :: rest => (if c = old then new else [c]) ++ replaceChar old new rest

/-- Go `interface\x7b\x7d` values that can be passed as query arguments or to
`Quoter.Value`. -/
inductive GoValue where
  | str : List Char → GoValue
  | int : Int → GoValue
  | bytes : List Nat → GoValue
  | slice : List GoValue → GoValue

/-- Result of `sqlServerQuoter.Value`: either the quoted text, or the Go
panic raised in the `default` branch of its type switch. -/
inductive ValueResult where
  | ok : List Char → ValueResult
  | panicked : List Char → ValueResult
deriving DecidableEq

/-- quoter.go: `func (sqlServerQuoter) ID(name string) string` returns
`"[" + strings.Replace(name, "]", "]]", -1) + "]"`. -/
def sqlServerQuoter.ID (name : List Char) : List Char :=
  '[' :: replaceChar ']' [']', ']'] name ++ [']']

/-- quoter.go: `func (sqlServerQuoter) Value(v interface\x7b\x7d) string`:
a string is wrapped in single quotes with embedded single quotes doubled;
every other kind of value hits `panic("unsupported value")`. -/
def sqlServerQuoter.Value (v : GoValue) : ValueResult :=
  match v with
  | .str s => .ok ('\'' :: replaceChar '\'' ['\'', '\''] s ++ ['\''])
  | _ => .panicked ("unsupported value".data)

/-- Re-parser for quoted identifiers, following the claim: strip the outer
delimiters, then collapse each doubled closing delimiter back to one. -/
def collapseDoubled (d : Char) : List Char → List Char
  | [] => []
  | [c] => [c]
  | c1 :: c2 :: rest =>
      if c1 = d ∧ c2 = d then d :: collapseDoubled d rest
      else c1 :: collapseDoubled d (c2 :: rest)

/-- Strip the outer delimiters of `sqlServerQuoter.ID` output and collapse
doubled `]` characters. -/
def unparseID (s : List Char) : List Char :=
  collapseDoubled ']' ((s.drop 1).dropLast)

end Sqlexp

namespace Nest

open Sqlexp

/-- Opaque model of `context.Context` values. -/
abbrev Ctx := Nat

/-- The `sqlexp.Savepointer` capability as used by nest.go: three pure
string templates keyed by a savepoint name. -/
structure Savepointer where
  create : List Char → List Char
  release : List Char → List Char
  rollback : List Char → List Char

/-- Errors surfaced by the nest wrapper: the two sentinel errors of nest.go
plus opaque driver execution errors. -/
inductive Err where
  | errNoTx
  | errNoNested
  | driverErr : Nat → Err
deriving DecidableEq

/-- A call made against a native database resource (identified by id). -/
inductive NativeCall where
  | exec : Nat → Ctx → List Char → NativeCall
  | commit : Nat → NativeCall
  | rollback : Nat → NativeCall
deriving DecidableEq

/-- Oracle for the outcomes of native database operations. `none` means
success; `some e` is an opaque driver error. -/
structure Env where
  beginResult : Ctx → Except Nat Nat
  execResult : Ctx → List Char → Option Nat
  commitResult : Nat → Option Nat
  rollbackResult : Nat → Option Nat

/-- Outcome of a `Commit`/`Rollback` call: success, an error value, or a Go
runtime panic caused by calling a method through a nil interface/pointer. -/
inductive Outcome where
  | ok
  | err : Err → Outcome
  | nilPanic
deriving DecidableEq

/-- nest.go `DB`: wraps a `sql.DB` (id) and remembers the Savepointer
detected from the driver (`savepointFromDriver`), which may be absent. -/
structure DB where
  dbId : Nat
  driverSavepointer : Option Savepointer

/-- nest.go `Tx`: context stored at creation, the wrapper `DB` (nil for
children, hence `Option`), the shared native `sql.Tx` (id), the nesting
index, the Savepointer (nil when absent), and the savepoint name (empty
for a top-level transaction). -/
structure Tx where
  ctx : Ctx
  dbId : Option Nat
  txId : Nat
  index : Nat
  savepointer : Option Savepointer
  savepoint : List Char

/-- nest.go `fmt.Sprintf("savept%dx", index)`. -/
def savepointName (index : Nat) : List Char :=
  "savept".data ++ (Nat.repr index).data ++ "x".data

/-- nest.go `DB.BeginTx`: open a native transaction and return a depth-0
`Tx` carrying the driver's Savepointer (possibly absent). -/
def DB.BeginTx (env : Env) (db : DB) (ctx : Ctx) : Except Err Tx :=
  match env.beginResult ctx with
  | .error e => .error (.driverErr e)
  | .ok txId =>
      .ok { ctx := ctx, dbId := some db.dbId, txId := txId, index := 0,
            savepointer := db.driverSavepointer, savepoint := [] }

/-- nest.go `Tx.BeginTx`: fail with `errNoNested` when the Savepointer is
nil; otherwise execute the Create SQL (under the parent transaction's
stored context `tx.ctx`) and, on success, return the child exactly as the
source builds it: the `db` and `savepointer` fields are left at their Go
zero values (nil). -/
def Tx.BeginTx (env : Env) (tx : Tx) (ctx : Ctx) : List NativeCall × Except Err Tx :=
  match tx.savepointer with
  | none => ([], .error .errNoNested)
  | some sp =>
      let index := tx.index + 1
      let savepoint := savepointName index
      let q := sp.create savepoint
      ([NativeCall.exec tx.txId tx.ctx q],
        match env.execResult tx.ctx q with
        | some e => .error (.driverErr e)
        | none =>
            .ok { ctx := ctx, dbId := none, txId := tx.txId, index := index,
                  savepointer := none, savepoint := savepoint })

/-- nest.go `Tx.Commit`: empty savepoint name delegates to the native
commit; otherwise `savepointer.Release` is consulted (a nil savepointer
panics), an empty release text is a success with no SQL executed, and a
non-empty one is executed with its error surfaced. -/
def Tx.Commit (env : Env) (tx : Tx) : List NativeCall × Outcome :=
  if tx.savepoint = [] then
    ([NativeCall.commit tx.txId],
      match env.commitResult tx.txId with
      | none => .ok
      | some e => .err (.driverErr e))
  else
    match tx.savepointer with
    | none => ([], .nilPanic)
    | some sp =>
        let q := sp.release tx.savepoint
        if q = [] then ([], .ok)
        else
          ([NativeCall.exec tx.txId tx.ctx q],
            match env.execResult tx.ctx q with
            | none => .ok
            | some e => .err (.driverErr e))

/-- nest.go `Tx.Rollback`: empty savepoint name delegates to the native
rollback; otherwise the `savepointer.Rollback` SQL is executed
unconditionally (a nil savepointer panics) and its error surfaced. -/
def Tx.Rollback (env : Env) (tx : Tx) : List NativeCall × Outcome :=
  if tx.savepoint = [] then
    ([NativeCall.rollback tx.txId],
      match env.rollbackResult tx.txId with
      | none => .ok
      | some e => .err (.driverErr e))
  else
    match tx.savepointer with
    | none => ([], .nilPanic)
    | some sp =>
        ([NativeCall.exec tx.txId tx.ctx (sp.rollback tx.savepoint)],
          match env.execResult tx.ctx (sp.rollback tx.savepoint) with
          | none => .ok
          | some e => .err (.driverErr e))

/-- A query/exec/prepare/ping call as delegated by a `Tx` method: which
resource receives it and with which arguments. -/
inductive DelegCall where
  | txExec : Nat → Ctx → List Char → List GoValue → DelegCall
  | txQuery : Nat → Ctx → List Char → List GoValue → DelegCall
  | txQueryRow : Nat → Ctx → List Char → List GoValue → DelegCall
  | txPrepare : Nat → Ctx → List Char → DelegCall
  | dbPing : Option Nat → Ctx → DelegCall

/-- nest.go `Tx.ExecContext`: `tx.tx.ExecContext(ctx, query, args...)`. -/
def Tx.ExecContext (tx : Tx) (ctx : Ctx) (query : List Char) (args : List GoValue) : DelegCall :=
  .txExec tx.txId ctx query args

/-- nest.go `Tx.QueryContext`: `tx.tx.QueryContext(ctx, query, args...)`. -/
def Tx.QueryContext (tx : Tx) (ctx : Ctx) (query : List Char) (args : List GoValue) : DelegCall :=
  .txQuery tx.txId ctx query args

/-- nest.go `Tx.QueryRowContext`: `tx.tx.QueryRowContext(ctx, query, args)`
— the source passes the slice `args` itself as a single variadic element,
not `args...`, so the native call receives one argument holding the whole
slice. -/
def Tx.QueryRowContext (tx : Tx) (ctx : Ctx) (query : List Char) (args : List GoValue) : DelegCall :=
  .txQueryRow tx.txId ctx query [GoValue.slice args]

/-- nest.go `Tx.PrepareContext`: `tx.tx.PrepareContext(ctx, query)`. -/
def Tx.PrepareContext (tx : Tx) (ctx : Ctx) (query : List Char) : DelegCall :=
  .txPrepare tx.txId ctx query

/-- nest.go `Tx.PingContext`: `tx.db.PingContext(ctx)` — it goes through
the wrapper `DB` (nil for child transactions), not the native `sql.Tx`. -/
def Tx.PingContext (tx : Tx) (ctx : Ctx) : DelegCall :=
  .dbPing tx.dbId ctx

/-- nest.go `DB.Commit`: always `errNoTx`, no database operation. -/
def DB.Commit (_db : DB) : List NativeCall × Outcome :=
  ([], .err .errNoTx)

/-- nest.go `DB.Rollback`: always `errNoTx`, no database operation. -/
def DB.Rollback (_db : DB) : List NativeCall × Outcome :=
  ([], .err .errNoTx)

/-- nest.go `Conn`: wraps a `sql.Conn` (id) together with the wrapper DB. -/
structure Conn where
  dbId : Nat
  connId : Nat

/-- nest.go `Conn.Commit`: always `errNoTx`, no database operation. -/
def Conn.Commit (_c : Conn) : List NativeCall × Outcome :=
  ([], .err .errNoTx)

/-- nest.go `Conn.Rollback`: always `errNoTx`, no database operation. -/
def Conn.Rollback (_c : Conn) : List NativeCall × Outcome :=
  ([], .err .errNoTx)

/-- A Savepointer with full support: create, release and rollback-to all
produce non-empty SQL. Used as a concrete driver capability. -/
def spFull : Savepointer where
  create := fun n => "SAVEPOINT ".data ++ n
  release := fun n => "RELEASE SAVEPOINT ".data ++ n
  rollback := fun n => "ROLLBACK TO SAVEPOINT ".data ++ n

/-- A Savepointer whose dialect has no release syntax: `Release` returns
empty text. -/
def spNoRelease : Savepointer where
  create := fun n => "SAVEPOINT ".data ++ n
  release := fun _ => []
  rollback := fun n => "ROLLBACK TO SAVEPOINT ".data ++ n

/-- An environment in which every native operation succeeds and `BeginTx`
hands out native transaction id 1. -/
def env0 : Env where
  beginResult := fun _ => .ok 1
  execResult := fun _ _ => none
  commitResult := fun _ => none
  rollbackResult := fun _ => none

/-- A wrapped DB whose driver has full savepoint support. -/
def dbDemo : DB where
  dbId := 0
  driverSavepointer := some spFull

/-- The depth-0 transaction `dbDemo.BeginTx(env0, ctx 0)` returns. -/
def tx0full : Tx where
  ctx := 0
  dbId := some 0
  txId := 1
  index := 0
  savepointer := some spFull
  savepoint := []

/-- The depth-1 child `tx0full.BeginTx(env0, ctx 1)` returns: as in the
source, its `db` and `savepointer` fields are nil. -/
def tx1full : Tx where
  ctx := 1
  dbId := none
  txId := 1
  index := 1
  savepointer := none
  savepoint := savepointName 1

/-- A depth-2 savepoint-emulated transaction state carrying a Savepointer
whose dialect lacks release syntax. -/
def tx2demo : Tx where
  ctx := 4
  dbId := none
  txId := 1
  index := 2
  savepointer := some spNoRelease
  savepoint := savepointName 2

/-- A depth-2 savepoint-emulated transaction state carrying a Savepointer
with full support. -/
def tx2full : Tx where
  ctx := 4
  dbId := none
  txId := 1
  index := 2
  savepointer := some spFull
  savepoint := savepointName 2

/-- The depth-1 child `tx0full.BeginTx(env0, ctx 9)` returns. -/
def tx1ctx9 : Tx where
  ctx := 9
  dbId := none
  txId := 1
  index := 1
  savepointer := none
  savepoint := savepointName 1

/-- A depth-0 transaction whose lineage root yielded no Savepointer. -/
def txNoSp : Tx where
  ctx := 0
  dbId := some 0
  txId := 1
  index := 0
  savepointer := none
  savepoint := []

end Nest

namespace Sqlexp

/-- Collapsing doubled delimiters leaves a non-delimiter head untouched. -/
theorem collapseDoubled_cons_of_ne (d c : Char) (l : List Char) (h : ¬ c = d) :
    collapseDoubled d (c :: l) = c :: collapseDoubled d l := by
  cases l with
  | nil => rfl
  | cons c2 rest => simp [collapseDoubled, h]

/-- Collapsing doubled delimiters undoes delimiter doubling. -/
theorem collapseDoubled_replaceChar (d : Char) (s : List Char) :
    collapseDoubled d (replaceChar d [d, d] s) = s := by
  induction s with
  | nil => rfl
  | cons c rest ih =>
    by_cases hc : c = d
    · subst hc
      simp [replaceChar, collapseDoubled, ih]
    · simp only [replaceChar, if_neg hc, List.singleton_append]
      rw [collapseDoubled_cons_of_ne d c _ hc, ih]

/-- C8: for every identifier string, `sqlServerQuoter.ID` wraps it in the
dialect delimiters with every embedded closing delimiter doubled, and
re-parsing the result (stripping the outer delimiters and collapsing each
doubled delimiter back to one) recovers the identifier exactly. -/
theorem id_escape_roundtrip (name : List Char) :
    unparseID (sqlServerQuoter.ID name) = name := by
  show collapseDoubled ']'
      ((('[' :: (replaceChar ']' [']', ']'] name ++ [']'])).drop 1).dropLast) = name
  rw [show (('[' :: (replaceChar ']' [']', ']'] name ++ [']'])).drop 1)
        = replaceChar ']' [']', ']'] name ++ [']'] from rfl,
    List.dropLast_concat]
  exact collapseDoubled_replaceChar ']' name

/-- C9: `sqlServerQuoter.Value` on the string It-apostrophe-s yields the
seven-character literal quoted text; on every string it wraps the text in
single quotes doubling embedded single quotes; and on every value of an
unsupported kind it fails (the Go panic of the default branch) rather than
producing best-effort output. -/
theorem value_quote_contract :
    sqlServerQuoter.Value (GoValue.str ['I', 't', '\'', 's']) =
      ValueResult.ok ['\'', 'I', 't', '\'', '\'', 's', '\''] ∧
    (∀ s : List Char, sqlServerQuoter.Value (GoValue.str s) =
      ValueResult.ok ('\'' :: replaceChar '\'' ['\'', '\''] s ++ ['\''])) ∧
    (∀ v : GoValue, (∀ s, v ≠ GoValue.str s) →
      sqlServerQuoter.Value v = ValueResult.panicked ("unsupported value".data)) := by
  refine ⟨rfl, fun s => rfl, fun v hv => ?_⟩
  cases v with
  | str s => exact absurd rfl (hv s)
  | int a => rfl
  | bytes a => rfl
  | slice a => rfl

/-- Witness for C9: an integer value is an unsupported kind and fails. -/
theorem value_quote_contract_witness :
    sqlServerQuoter.Value (GoValue.int 3) = ValueResult.panicked ("unsupported value".data) :=
  value_quote_contract.2.2 (GoValue.int 3) (fun _ h => GoValue.noConfusion h)

end Sqlexp

namespace Nest

open Sqlexp

/-- C2: for a savepoint-emulated transaction (depth > 0) carrying a
Savepointer, Commit executes zero SQL statements and succeeds when the
Release text for its savepoint name is empty, and otherwise executes
exactly that statement and returns the execution's outcome. -/
theorem commit_savepoint (env : Env) (tx : Tx) (sp : Savepointer)
    (hidx : 0 < tx.index) (hsp : tx.savepointer = some sp) (hname : tx.savepoint ≠ []) :
    (sp.release tx.savepoint = [] → Tx.Commit env tx = ([], Outcome.ok)) ∧
    (sp.release tx.savepoint ≠ [] →
      Tx.Commit env tx =
        ([NativeCall.exec tx.txId tx.ctx (sp.release tx.savepoint)],
          match env.execResult tx.ctx (sp.release tx.savepoint) with
          | none => Outcome.ok
          | some e => Outcome.err (Err.driverErr e))) := by
  constructor
  · intro hrel
    simp [Tx.Commit, hname, hsp, hrel]
  · intro hrel
    simp [Tx.Commit, hname, hsp, hrel]

/-- Witness for C2: committing the depth-2 transaction whose dialect has no
release syntax executes no SQL and succeeds. -/
theorem commit_savepoint_witness :
    Tx.Commit env0 tx2demo = ([], Outcome.ok) :=
  (commit_savepoint env0 tx2demo spNoRelease (by decide) rfl (by decide)).1 rfl

/-- C3: for a savepoint-emulated transaction (depth > 0) carrying a
Savepointer, Rollback unconditionally executes exactly one
rollback-to-savepoint statement and returns the execution's outcome,
independently of the Release text. -/
theorem rollback_savepoint (env : Env) (tx : Tx) (sp : Savepointer)
    (hidx : 0 < tx.index) (hsp : tx.savepointer = some sp) (hname : tx.savepoint ≠ []) :
    Tx.Rollback env tx =
      ([NativeCall.exec tx.txId tx.ctx (sp.rollback tx.savepoint)],
        match env.execResult tx.ctx (sp.rollback tx.savepoint) with
        | none => Outcome.ok
        | some e => Outcome.err (Err.driverErr e)) := by
  simp [Tx.Rollback, hname, hsp]

/-- Witness for C3: rolling back a depth-2 transaction whose dialect has no
release syntax still executes exactly one rollback-to statement. -/
theorem rollback_savepoint_witness :
    Tx.Rollback env0 tx2demo =
      ([NativeCall.exec 1 4 (spNoRelease.rollback (savepointName 2))], Outcome.ok) :=
  rollback_savepoint env0 tx2demo spNoRelease (by decide) rfl (by decide)

/-- C6: BeginTx on a transaction with no savepointer capability fails
immediately with the nested-transactions-unsupported error, executes no
SQL statement and returns no child transaction. -/
theorem beginTx_no_savepointer (env : Env) (tx : Tx) (ctx : Ctx)
    (h : tx.savepointer = none) :
    Tx.BeginTx env tx ctx = ([], Except.error Err.errNoNested) := by
  simp [Tx.BeginTx, h]

/-- Witness for C6 at a concrete savepointer-less transaction. -/
theorem beginTx_no_savepointer_witness :
    Tx.BeginTx env0 txNoSp 5 = ([], Except.error Err.errNoNested) :=
  beginTx_no_savepointer env0 txNoSp 5 rfl

/-- C7: Commit and Rollback on a wrapped DB or on a bare Conn always fail
with the not-in-transaction error and perform no database operation. -/
theorem commit_rollback_not_in_transaction (db : DB) (c : Conn) :
    DB.Commit db = ([], Outcome.err Err.errNoTx) ∧
    DB.Rollback db = ([], Outcome.err Err.errNoTx) ∧
    Conn.Commit c = ([], Outcome.err Err.errNoTx) ∧
    Conn.Rollback c = ([], Outcome.err Err.errNoTx) :=
  ⟨rfl, rfl, rfl, rfl⟩

/-- C10: a nested BeginTx executes the CREATE SAVEPOINT statement under the
context stored in the parent transaction at the parent's creation, not the
context passed to the call; the passed context is only recorded in the
returned child transaction. -/
theorem beginTx_parent_ctx (env : Env) (tx : Tx) (ctx : Ctx) (sp : Savepointer)
    (hsp : tx.savepointer = some sp) :
    (Tx.BeginTx env tx ctx).1 =
      [NativeCall.exec tx.txId tx.ctx (sp.create (savepointName (tx.index + 1)))] ∧
    (∀ child : Tx, (Tx.BeginTx env tx ctx).2 = Except.ok child → child.ctx = ctx) := by
  constructor
  · simp [Tx.BeginTx, hsp]
  · intro child hc
    simp only [Tx.BeginTx, hsp] at hc
    cases henv : env.execResult tx.ctx (sp.create (savepointName (tx.index + 1))) with
    | some e =>
        rw [henv] at hc
        exact Except.noConfusion hc
    | none =>
        rw [henv] at hc
        cases hc
        rfl

/-- Witness for C10: beginning a nested transaction on `tx0full` (stored
context 0) with passed context 9 executes the CREATE statement under
context 0 and stores context 9 in the child. -/
theorem beginTx_parent_ctx_witness :
    (Tx.BeginTx env0 tx0full 9).1 =
      [NativeCall.exec 1 0 (spFull.create (savepointName 1))] ∧
    tx1ctx9.ctx = 9 :=
  ⟨(beginTx_parent_ctx env0 tx0full 9 spFull rfl).1,
    (beginTx_parent_ctx env0 tx0full 9 spFull rfl).2 tx1ctx9 rfl⟩

/-- C1 evaluated on the code: on a driver with full savepoint support,
DB.BeginTx succeeds and the first nested BeginTx succeeds with savepoint
name savept1x, but the child is built without the savepointer field, so
the next nested BeginTx fails with the nested-transactions-unsupported
error instead of yielding a third level named savept2x. -/
theorem nested_begin_chain_fails :
    DB.BeginTx env0 dbDemo 0 = Except.ok tx0full ∧
    Tx.BeginTx env0 tx0full 1 =
      ([NativeCall.exec 1 0 (spFull.create (savepointName 1))], Except.ok tx1full) ∧
    tx1full.savepointer = none ∧
    Tx.BeginTx env0 tx1full 2 = ([], Except.error Err.errNoNested) :=
  ⟨rfl, rfl, rfl, rfl⟩

/-- C4 evaluated on the code: the depth-0 half of the invariant holds
(empty savepoint name, commit/rollback via the native primitives) and the
depth-1 child produced by the constructors has a non-empty savepoint name,
but its Commit and Rollback dereference the nil savepointer and panic
instead of going through generated savepoint SQL. -/
theorem depth1_commit_rollback_panic :
    tx0full.index = 0 ∧ tx0full.savepoint = [] ∧
    Tx.Commit env0 tx0full = ([NativeCall.commit 1], Outcome.ok) ∧
    Tx.Rollback env0 tx0full = ([NativeCall.rollback 1], Outcome.ok) ∧
    Tx.BeginTx env0 tx0full 1 =
      ([NativeCall.exec 1 0 (spFull.create (savepointName 1))], Except.ok tx1full) ∧
    0 < tx1full.index ∧ tx1full.savepoint ≠ [] ∧
    Tx.Commit env0 tx1full = ([], Outcome.nilPanic) ∧
    Tx.Rollback env0 tx1full = ([], Outcome.nilPanic) :=
  ⟨rfl, rfl, by decide, by decide, rfl, by decide, by decide, by decide, by decide⟩

/-- C5 evaluated on the code: ExecContext, QueryContext and PrepareContext
delegate to the native transaction with the same arguments, but
QueryRowContext passes the whole argument slice to the native call as one
single argument, and PingContext goes through the wrapper DB rather than
the native transaction. -/
theorem queryRow_args_not_spread :
    Tx.ExecContext tx0full 3 ("q".data) [GoValue.int 5] =
      DelegCall.txExec 1 3 ("q".data) [GoValue.int 5] ∧
    Tx.QueryContext tx0full 3 ("q".data) [GoValue.int 5] =
      DelegCall.txQuery 1 3 ("q".data) [GoValue.int 5] ∧
    Tx.PrepareContext tx0full 3 ("q".data) = DelegCall.txPrepare 1 3 ("q".data) ∧
    Tx.QueryRowContext tx0full 3 ("q".data) [GoValue.int 5] =
      DelegCall.txQueryRow 1 3 ("q".data) [GoValue.slice [GoValue.int 5]] ∧
    Tx.QueryRowContext tx0full 3 ("q".data) [GoValue.int 5] ≠
      DelegCall.txQueryRow 1 3 ("q".data) [GoValue.int 5] ∧
    Tx.PingContext tx0full 3 = DelegCall.dbPing (some 0) 3 ∧
    Tx.PingContext tx1full 3 = DelegCall.dbPing none 3 := by
  refine ⟨rfl, rfl, rfl, rfl, ?_, rfl, rfl⟩
  intro h
  simp [Tx.QueryRowContext] at h

end Nest
